import Mathlib

/-!
Verification of the IDROCK risk-assessment mediation layer (NexShop Node.js
side): the Assessment Client (`services/idrockClient.js`), the mediation
middleware (`middleware/security.js`), the audit-event builders
(`models/SecurityLog.js`), the configuration module (`config/idrock.js`)
and the browser fingerprint collector (`public/js/idrock-sdk.js`).

The JavaScript source is shallowly embedded: objects become structures,
`undefined`-able values become `Option`, JS truthiness and the `||` /
optional-chaining idioms become explicit helper functions, the network is an
oracle argument (`Except HttpError Assessment`), and the nondeterministic
inputs of a call (uuid values, clock readings) are passed in explicitly.
-/

deriving instance DecidableEq for Except

namespace IDRock

/-! ## JS value helpers -/

/-- A JS value that may be `undefined` (`none`) or a string; `some ""` is a
present-but-empty string.  Both are falsy. -/
def jsFalsyStr : Option String → Bool
  | none => true
  | some s => s = ""

/-- JS `a || b` for an optional string `a` and a string default `b`:
`undefined` and `""` are falsy and select the default. -/
def jsOrStr (a : Option String) (b : String) : String :=
  match a with
  | none => b
  | some s => if s = "" then b else s

/-- JS `x || null` for an optional string: `undefined` and `""` become null. -/
def jsOrNullStr : Option String → Option String
  | none => none
  | some s => if s = "" then none else some s

/-- A free-form JSON-ish value, enough for the object literals the embedded
code builds (`proxycheck_data`, fallback `metadata`). -/
inductive JsVal
  | s (v : String)
  | n (v : Nat)
  | b (v : Bool)
  deriving DecidableEq, Repr

/-! ## Configuration (`config/idrock.js`)

Only the fields the mediation layer reads are embedded.  Environment
overrides are not modelled; the values below are the defaults the module
exports when the corresponding environment variables are unset. -/

/-- The `api` section of `config/idrock.js`: `retryAttempts: 3`,
`retryDelay: 1000`. -/
structure ApiConfig where
  retryAttempts : Nat
  retryDelay : Nat
  deriving DecidableEq, Repr

def idrockApiConfig : ApiConfig := { retryAttempts := 3, retryDelay := 1000 }

/-- The `risk.fallback` section of `config/idrock.js`. -/
structure FallbackConfig where
  enabled : Bool
  defaultRiskLevel : String
  allowProceed : Bool
  deriving DecidableEq, Repr

def idrockFallbackConfig : FallbackConfig :=
  { enabled := true, defaultRiskLevel := "REVIEW", allowProceed := true }

/-! ## HTTP errors and the retry interceptor (`idrockClient.js`, `_setupInterceptors`) -/

/-- An axios error as the response interceptor sees it: either no response
arrived (network error / timeout, `error.response` undefined) or an HTTP
response with a status code. -/
structure HttpError where
  hasResponse : Bool
  status : Nat
  deriving DecidableEq, Repr

/-- The `(!error.response || error.response.status >= 500)` clause of the
interceptor. -/
def isRetryableError (e : HttpError) : Bool :=
  !e.hasResponse || decide (e.status ≥ 500)

/-- JS truthiness of `config._retryCount`, which is `undefined` before any
retry has been recorded. -/
def jsTruthyCount : Option Nat → Bool
  | none => false
  | some k => decide (k ≠ 0)

/-- JS `config._retryCount < retryAttempts` where `_retryCount` may be
`undefined`: `undefined < n` is `NaN < n`, which is `false`. -/
def jsLtCount : Option Nat → Nat → Bool
  | none, _ => false
  | some k, n => decide (k < n)

/-- The interceptor's retry decision, verbatim from the source:
`!config._retryCount && config._retryCount < this.config.retryAttempts &&
(!error.response || error.response.status >= 500)`. -/
def shouldRetry (cfg : ApiConfig) (retryCount : Option Nat) (e : HttpError) : Bool :=
  !jsTruthyCount retryCount && jsLtCount retryCount cfg.retryAttempts && isRetryableError e

/-- Number of HTTP attempts a permanently-failing call issues: the first
request, plus one more each time the interceptor decides to retry
(`config._retryCount = (config._retryCount || 0) + 1` before re-sending).
`fuel` bounds the recursion; `cfg.retryAttempts + 1` is always enough. -/
def failingCallAttemptsAux (cfg : ApiConfig) (e : HttpError) :
    Option Nat → Nat → Nat
  | _, 0 => 1
  | rc, fuel + 1 =>
    if shouldRetry cfg rc e then
      1 + failingCallAttemptsAux cfg e (some (rc.getD 0 + 1)) fuel
    else 1

/-- Attempts issued for a call all of whose sends fail with `e`. -/
def failingCallAttempts (cfg : ApiConfig) (e : HttpError) : Nat :=
  failingCallAttemptsAux cfg e none (cfg.retryAttempts + 1)

/-- Retries (attempts beyond the first) for a permanently-failing call. -/
def retriesForFailingCall (cfg : ApiConfig) (e : HttpError) : Nat :=
  failingCallAttempts cfg e - 1

/-- The backoff the interceptor would wait before each retry it performs:
`retryDelay * 2 ^ (_retryCount - 1)`. -/
def failingCallDelaysAux (cfg : ApiConfig) (e : HttpError) :
    Option Nat → Nat → List Nat
  | _, 0 => []
  | rc, fuel + 1 =>
    if shouldRetry cfg rc e then
      let newCount := rc.getD 0 + 1
      cfg.retryDelay * 2 ^ (newCount - 1) ::
        failingCallDelaysAux cfg e (some newCount) fuel
    else []

def failingCallDelays (cfg : ApiConfig) (e : HttpError) : List Nat :=
  failingCallDelaysAux cfg e none (cfg.retryAttempts + 1)

/-! ## Input validation (`idrockClient.js`, `_validateUserData`) -/

/-- The user data `verifyIdentity` receives.  Each required field may be
absent (`none`) or present; only the four validated fields are embedded. -/
structure UserData where
  userId : Option String
  ipAddress : Option String
  userAgent : Option String
  actionType : Option String
  deriving DecidableEq, Repr

/-- Errors raised by the SDK (`IDRockAPIError`): the three validation
failures, or a wrapped HTTP/network failure. -/
inductive SdkError
  | missingField (field : String)
  | invalidActionType (a : String)
  | invalidIpFormat (ip : String)
  | apiError (e : HttpError)
  deriving DecidableEq, Repr

/-- An SDK error is invalid input exactly when it was raised by
`_validateUserData`, before any network traffic. -/
def SdkError.isInvalidInput : SdkError → Bool
  | .apiError _ => false
  | _ => true

def validActions : List String := ["login", "checkout", "sensitive_action"]

def isDigitChar (c : Char) : Bool := '0' ≤ c && c ≤ '9'

def isHexChar (c : Char) : Bool :=
  isDigitChar c || ('a' ≤ c && c ≤ 'f') || ('A' ≤ c && c ≤ 'F')

/-- Split a character list on a separator, keeping empty groups — the
semantics of `String.prototype.split` on a single-character separator. -/
def splitOnChar (sep : Char) : List Char → List (List Char)
  | [] => [[]]
  | c :: rest =>
    let r := splitOnChar sep rest
    if c = sep then [] :: r
    else
      match r with
      | [] => [[c]]
      | g :: gs => (c :: g) :: gs

/-- A group of between `lo` and `hi` characters, all satisfying `p`. -/
def groupOf (lo hi : Nat) (p : Char → Bool) (g : List Char) : Bool :=
  decide (lo ≤ g.length) && decide (g.length ≤ hi) && g.all p

/-- The IPv4 half of the source regex
`^(?:[0-9]{1,3}\.){3}[0-9]{1,3}$`: exactly four dot-separated groups of one
to three decimal digits. -/
def ipv4RegexTest (s : String) : Bool :=
  let parts := splitOnChar '.' s.data
  decide (parts.length = 4) && parts.all (groupOf 1 3 isDigitChar)

/-- The IPv6 half of the source regex
`^(?:[0-9a-fA-F]{1,4}:){7}[0-9a-fA-F]{1,4}$`: exactly eight colon-separated
groups of one to four hex digits (no compressed forms). -/
def ipv6RegexTest (s : String) : Bool :=
  let parts := splitOnChar ':' s.data
  decide (parts.length = 8) && parts.all (groupOf 1 4 isHexChar)

/-- The `ipRegex.test(userData.ipAddress)` check of `_validateUserData`. -/
def ipRegexTest (s : String) : Bool := ipv4RegexTest s || ipv6RegexTest s

/-- The body of `_validateUserData`: required fields in declaration order,
then the action-type whitelist, then the IP format check. -/
def validateUserData (u : UserData) : Except SdkError Unit :=
  if jsFalsyStr u.userId then .error (.missingField "userId")
  else if jsFalsyStr u.ipAddress then .error (.missingField "ipAddress")
  else if jsFalsyStr u.userAgent then .error (.missingField "userAgent")
  else if jsFalsyStr u.actionType then .error (.missingField "actionType")
  else if !validActions.contains (u.actionType.getD "") then
    .error (.invalidActionType (u.actionType.getD ""))
  else if !ipRegexTest (u.ipAddress.getD "") then
    .error (.invalidIpFormat (u.ipAddress.getD ""))
  else .ok ()

/-- Decimal value of a digit group. -/
def digitsToNat (l : List Char) : Nat :=
  l.foldl (fun n c => n * 10 + (c.toNat - 48)) 0

/-- Syntactic IPv4 validity per the standard dotted-quad grammar: four
dot-separated decimal octets, each with a value between 0 and 255.  This is
the specification-side notion of a syntactically valid address, used to
compare with the client's regex. -/
def specValidIPv4 (s : String) : Bool :=
  let parts := splitOnChar '.' s.data
  decide (parts.length = 4) && parts.all fun p =>
    !p.isEmpty && p.all isDigitChar && decide (digitsToNat p ≤ 255)

/-- Specification-side IPv6 validity; the uncompressed eight-group form
(compressed `::` forms are omitted — the claims below only evaluate this on
dotted-quad strings, which contain no colon at all). -/
def specValidIPv6 (s : String) : Bool := ipv6RegexTest s

/-- A syntactically valid IPv4 or IPv6 address, specification side. -/
def specValidIp (s : String) : Bool := specValidIPv4 s || specValidIPv6 s

/-! ## Risk assessments and fallback synthesis (`idrockClient.js`, `createFallbackResponse`) -/

/-- One entry of `risk_factors`. -/
structure RiskFactor where
  factor : String
  score : Nat
  weight : Nat
  details : String
  proxycheck_data : List (String × JsVal)
  deriving DecidableEq, Repr

/-- One entry of `recommendations`. -/
structure Recommendation where
  action : String
  priority : String
  message : String
  deriving DecidableEq, Repr

/-- A risk assessment as the Node SDK returns it (the parsed service
response, or a locally synthesized fallback).  `metadata` is kept as the
key/value list of the object literal so that the presence or absence of a
key is expressible.  `weight: 1.0` is embedded as the integer 1. -/
structure Assessment where
  confidence_score : Nat
  risk_level : String
  risk_factors : List RiskFactor
  recommendations : List Recommendation
  metadata : List (String × JsVal)
  timestamp : String
  request_id : Option String
  api_version : Option String
  fallback : Bool
  fallback_reason : Option String
  deriving DecidableEq, Repr

/-- The nondeterministic inputs of one `createFallbackResponse` call: the two
`uuidv4()` draws and the `new Date().toISOString()` reading. -/
structure FallbackNondet where
  uuidMeta : String
  uuidTop : String
  now : String
  deriving DecidableEq, Repr

/-- JS `s.substring(0, 12)`. -/
def take12 (s : String) : String := ⟨s.data.take 12⟩

/-- The body of `createFallbackResponse(userId, reason)`.  Note that the
source never reads `userId`, that the fallback marker is the top-level
`fallback: true` / `fallback_reason` pair (plus `proxycheck_data.fallback`
inside the synthetic factor), and that the `metadata` object has no
`fallback` key. -/
def createFallbackResponse (userId reason : String) (nd : FallbackNondet) : Assessment :=
  { confidence_score := 50
    risk_level := idrockFallbackConfig.defaultRiskLevel
    risk_factors := [
      { factor := "system_fallback"
        score := 50
        weight := 1
        details := "Risk assessment service unavailable: " ++ reason
        proxycheck_data := [("fallback", .b true)] }]
    recommendations := [
      { action := "manual_review_recommended"
        priority := "medium"
        message := "Manual review recommended due to service unavailability" }]
    metadata := [
      ("processing_time_ms", .n 0),
      ("api_version", .s "1.0.0-fallback"),
      ("request_id", .s ("fallback_" ++ take12 nd.uuidMeta)),
      ("mvp_scope", .s "fallback_mode")]
    timestamp := nd.now
    request_id := some ("fallback_" ++ take12 nd.uuidTop)
    api_version := some "1.0.0-fallback"
    fallback := true
    fallback_reason := some reason }

/-! ## The Assessment Client's main operations (`idrockClient.js`)

The network is an oracle: `net` is what the (retry-wrapped) HTTP exchange
ultimately produces — a parsed assessment, or the error the interceptor gave
up with. -/

/-- The result `verifyIdentity` settles with: validation runs first and
short-circuits; otherwise the oracle outcome is returned, network errors
wrapped into an `IDRockAPIError` by `_handleError`. -/
def verifyIdentityResult (u : UserData) (net : Except HttpError Assessment) :
    Except SdkError Assessment :=
  match validateUserData u with
  | .error e => .error e
  | .ok _ =>
    match net with
    | .ok a => .ok a
    | .error e => .error (.apiError e)

/-- How many HTTP requests a `verifyIdentity` call issues: zero when
validation throws before `httpClient.post`, one on first-try success, and
the interceptor-driven count when every send fails. -/
def verifyNetworkAttempts (u : UserData) (cfg : ApiConfig)
    (net : Except HttpError Assessment) : Nat :=
  match validateUserData u with
  | .error _ => 0
  | .ok _ =>
    match net with
    | .ok _ => 1
    | .error e => failingCallAttempts cfg e

/-- The `stats` counters of the SDK (`averageResponseTime`, a floating-point
moving average, and `lastRequestTime`, a clock reading, are not modelled). -/
structure SdkStats where
  totalRequests : Nat
  successfulRequests : Nat
  failedRequests : Nat
  deriving DecidableEq, Repr

/-- Stats update of `verifyIdentity`: the success path bumps
`totalRequests`/`successfulRequests`, the catch bumps
`totalRequests`/`failedRequests`. -/
def verifyIdentityStats (u : UserData) (net : Except HttpError Assessment)
    (s : SdkStats) : SdkStats :=
  match verifyIdentityResult u net with
  | .ok _ =>
    { s with totalRequests := s.totalRequests + 1
             successfulRequests := s.successfulRequests + 1 }
  | .error _ =>
    { s with totalRequests := s.totalRequests + 1
             failedRequests := s.failedRequests + 1 }

/-- Stats update of `getAssessmentHistory`: same two paths, keyed on the
HTTP outcome (the payload shape does not matter). -/
def getAssessmentHistoryStats (net : Except HttpError Unit) (s : SdkStats) : SdkStats :=
  match net with
  | .ok _ =>
    { s with totalRequests := s.totalRequests + 1
             successfulRequests := s.successfulRequests + 1 }
  | .error _ =>
    { s with totalRequests := s.totalRequests + 1
             failedRequests := s.failedRequests + 1 }

/-- Stats update of `healthCheck`: identical shape. -/
def healthCheckStats (net : Except HttpError Unit) (s : SdkStats) : SdkStats :=
  match net with
  | .ok _ =>
    { s with totalRequests := s.totalRequests + 1
             successfulRequests := s.successfulRequests + 1 }
  | .error _ =>
    { s with totalRequests := s.totalRequests + 1
             failedRequests := s.failedRequests + 1 }

/-! ## Security events (`models/SecurityLog.js`)

Only the fields the middleware claims are about are embedded; the store is
external, so an event is the record `SecurityLog.create` would insert, and a
middleware run is paired with the list of events it writes. -/

structure SecurityEvent where
  event_type : String
  user_id : Option String
  ip_address : String
  user_agent : Option String
  idrock_request_id : Option String
  risk_level : String
  confidence_score : Option Nat
  action_taken : String
  success : Bool
  deriving DecidableEq, Repr

/-- JS `riskAssessment?.confidence_score || null`: a score of 0 is falsy and
becomes null, like an absent one. -/
def jsOrNullScore (n : Nat) : Option Nat := if n = 0 then none else some n

/-- The record `SecurityLog.logRiskAssessment` inserts. -/
def logRiskAssessmentEvent (userId : Option String) (ip : String)
    (ua : Option String) (a : Assessment) (success : Bool) : SecurityEvent :=
  { event_type := "risk_assessment"
    user_id := jsOrNullStr userId
    ip_address := ip
    user_agent := ua
    idrock_request_id := jsOrNullStr a.request_id
    risk_level := if a.risk_level = "" then "UNKNOWN" else a.risk_level
    confidence_score := jsOrNullScore a.confidence_score
    action_taken := "assessed"
    success := success }

/-- The record `SecurityLog.logLoginAttempt` inserts. -/
def logLoginAttemptEvent (userId : Option String) (ip : String)
    (ua : Option String) (a : Assessment) (actionTaken : String)
    (success : Bool) : SecurityEvent :=
  { event_type := "login_attempt"
    user_id := userId
    ip_address := ip
    user_agent := ua
    idrock_request_id := jsOrNullStr a.request_id
    risk_level := if a.risk_level = "" then "UNKNOWN" else a.risk_level
    confidence_score := jsOrNullScore a.confidence_score
    action_taken := actionTaken
    success := success }

/-- The record `SecurityLog.logCheckoutAttempt` inserts. -/
def logCheckoutAttemptEvent (userId : Option String) (ip : String)
    (ua : Option String) (a : Assessment) (actionTaken : String)
    (success : Bool) : SecurityEvent :=
  { event_type := "checkout_attempt"
    user_id := userId
    ip_address := ip
    user_agent := ua
    idrock_request_id := jsOrNullStr a.request_id
    risk_level := if a.risk_level = "" then "UNKNOWN" else a.risk_level
    confidence_score := jsOrNullScore a.confidence_score
    action_taken := actionTaken
    success := success }

def isRiskAssessmentEvent (ev : SecurityEvent) : Bool :=
  ev.event_type = "risk_assessment"

/-! ## Mediation middleware (`middleware/security.js`) -/

/-- The middleware configuration fields `middleware/security.js` reads off
`config/idrock.js`. -/
structure MiddlewareConfig where
  integrationEnabled : Bool
  fallbackEnabled : Bool
  fallbackAllowProceed : Bool
  deriving DecidableEq, Repr

/-- The default deployment configuration (`integration.enabled` true,
`risk.fallback.enabled` true, `risk.fallback.allowProceed` true). -/
def idrockCfg : MiddlewareConfig :=
  { integrationEnabled := true, fallbackEnabled := true, fallbackAllowProceed := true }

/-- The parts of an Express request the middleware reads.  Fields are
`Option` because each may be `undefined` on a given request. -/
structure ExpressRequest where
  username : Option String
  email : Option String
  bodyUserId : Option String
  authUserId : Option String
  userAgent : Option String
  ip : Option String
  connRemoteAddress : Option String
  sockRemoteAddress : Option String
  connSockRemoteAddress : Option String
  deriving DecidableEq, Repr

/-- The fallback chain of `_getClientIP`. -/
def getClientIP (r : ExpressRequest) : String :=
  jsOrStr r.ip (jsOrStr r.connRemoteAddress (jsOrStr r.sockRemoteAddress
    (jsOrStr r.connSockRemoteAddress "127.0.0.1")))

/-- The body of `_extractLoginUserData`. -/
def extractLoginUserData (r : ExpressRequest) : UserData :=
  { userId := some (jsOrStr r.username (jsOrStr r.email "anonymous"))
    ipAddress := some (getClientIP r)
    userAgent := some (jsOrStr r.userAgent "unknown")
    actionType := some "login" }

/-- The body of `_extractCheckoutUserData` (only the validated fields). -/
def extractCheckoutUserData (r : ExpressRequest) : UserData :=
  { userId := some (jsOrStr r.authUserId (jsOrStr r.bodyUserId "unknown"))
    ipAddress := some (getClientIP r)
    userAgent := some (jsOrStr r.userAgent "unknown")
    actionType := some "checkout" }

/-- The user data `assessRisk(actionType)` builds inside its try block. -/
def assessRiskUserData (r : ExpressRequest) (actionType : String) : UserData :=
  { userId := some (jsOrStr r.authUserId (jsOrStr r.bodyUserId "anonymous"))
    ipAddress := some (getClientIP r)
    userAgent := some (jsOrStr r.userAgent "unknown")
    actionType := some actionType }

/-- The body of `_resolveUserId`: empty or `anonymous` identifiers resolve
to null, otherwise the (external, injected) user lookup decides; a lookup
failure also yields null, which `resolve` models by returning `none`. -/
def resolveUserId (resolve : String → Option String) (identifier : String) :
    Option String :=
  if identifier = "" ∨ identifier = "anonymous" then none else resolve identifier

/-- How a middleware run hands control on: `next()` (with the annotations it
left on the request) or an early JSON response. -/
inductive LoginOutcome
  | next (assessment : Option Assessment) (requiresAdditionalAuth : Bool)
  | reject (status : Nat) (code : String) (requestId : Option String) (message : String)
  deriving DecidableEq, Repr

structure LoginResult where
  outcome : LoginOutcome
  events : List SecurityEvent
  deriving DecidableEq, Repr

/-- The body of `protectLogin`, over the verification outcome.  The
`SecurityLog` writes are collected in `events` (the store itself is
external; writes are modelled as succeeding).  Note the catch block makes no
distinction between validation errors and exhausted service errors, and that
its 503 body carries no request id. -/
def protectLogin (cfg : MiddlewareConfig) (resolve : String → Option String)
    (req : ExpressRequest) (net : Except HttpError Assessment)
    (nd : FallbackNondet) : LoginResult :=
  if !cfg.integrationEnabled then { outcome := .next none false, events := [] }
  else
    let userData := extractLoginUserData req
    match verifyIdentityResult userData net with
    | .ok a =>
      let uid := resolveUserId resolve (userData.userId.getD "")
      let raEvent := logRiskAssessmentEvent uid (userData.ipAddress.getD "")
        userData.userAgent a true
      if a.risk_level = "DENY" then
        let laEvent := logLoginAttemptEvent uid (userData.ipAddress.getD "")
          userData.userAgent a "blocked" false
        { outcome := .reject 403 "SECURITY_BLOCK" a.request_id
            "Your login attempt has been blocked due to security concerns. Please contact support if you believe this is an error."
          events := [raEvent, laEvent] }
      else if a.risk_level = "REVIEW" then
        { outcome := .next (some a) true, events := [raEvent] }
      else
        { outcome := .next (some a) false, events := [raEvent] }
    | .error _ =>
      if cfg.fallbackEnabled then
        let fb := createFallbackResponse (jsOrStr req.username "unknown")
          "service_error" nd
        let raEvent := logRiskAssessmentEvent req.username (getClientIP req)
          req.userAgent fb false
        if cfg.fallbackAllowProceed then
          { outcome := .next (some fb) true, events := [raEvent] }
        else
          { outcome := .reject 503 "SERVICE_UNAVAILABLE" none
              "Please try again in a few minutes"
            events := [raEvent] }
      else
        { outcome := .reject 503 "SERVICE_UNAVAILABLE" none
            "Please try again in a few minutes"
          events := [] }

/-- Hand-off of `protectCheckout`: `next()` with its annotations, or an
early response. -/
inductive CheckoutOutcome
  | next (assessment : Option Assessment) (requiresReview : Bool)
  | reject (status : Nat) (code : String) (requestId : Option String) (message : String)
  deriving DecidableEq, Repr

structure CheckoutResult where
  outcome : CheckoutOutcome
  events : List SecurityEvent
  deriving DecidableEq, Repr

/-- The body of `protectCheckout`.  Its catch block synthesizes a fallback
and proceeds flagged, but — unlike `protectLogin` — writes no
`risk_assessment` event on that path. -/
def protectCheckout (cfg : MiddlewareConfig) (req : ExpressRequest)
    (net : Except HttpError Assessment) (nd : FallbackNondet) : CheckoutResult :=
  if !cfg.integrationEnabled then { outcome := .next none false, events := [] }
  else
    let userData := extractCheckoutUserData req
    match verifyIdentityResult userData net with
    | .ok a =>
      let raEvent := logRiskAssessmentEvent userData.userId
        (userData.ipAddress.getD "") userData.userAgent a true
      if a.risk_level = "DENY" then
        let caEvent := logCheckoutAttemptEvent userData.userId
          (userData.ipAddress.getD "") userData.userAgent a "blocked" false
        { outcome := .reject 403 "TRANSACTION_BLOCKED" a.request_id
            "Your transaction has been blocked due to security concerns. Please contact support."
          events := [raEvent, caEvent] }
      else if a.risk_level = "REVIEW" then
        { outcome := .next (some a) true, events := [raEvent] }
      else
        { outcome := .next (some a) false, events := [raEvent] }
    | .error _ =>
      if cfg.fallbackEnabled then
        let fb := createFallbackResponse (jsOrStr req.authUserId "unknown")
          "checkout_service_error" nd
        { outcome := .next (some fb) true, events := [] }
      else
        { outcome := .reject 503 "SECURITY_VERIFICATION_REQUIRED" none
            "Transaction cannot be processed at this time. Please try again later."
          events := [] }

/-- A JS runtime error the embedded code itself raises. -/
inductive JsRuntimeError
  | referenceError (name : String)
  deriving DecidableEq, Repr

/-- Hand-off of the generic `assessRisk(actionType)` middleware: `next()`,
or an exception escaping the handler. -/
inductive AssessOutcome
  | next (assessment : Option Assessment)
  | thrown (e : JsRuntimeError)
  deriving DecidableEq, Repr

structure AssessResult where
  outcome : AssessOutcome
  events : List SecurityEvent
  deriving DecidableEq, Repr

/-- The identifiers bound in the catch block of `assessRisk`'s returned
handler: the catch parameter and the enclosing function parameters.
`userData` is declared with `const` inside the `try` block, so it is NOT in
scope here. -/
def assessRiskCatchScope : List String := ["error", "req", "res", "next", "actionType"]

/-- The body of `assessRisk(actionType)`'s handler.  The catch block
evaluates `userData?.userId || 'unknown'`; since `userData` is block-scoped
to the `try`, that evaluation raises a `ReferenceError` (optional chaining
does not guard an unresolvable identifier), which escapes the handler.  The
handler writes no security events at all. -/
def assessRisk (cfg : MiddlewareConfig) (actionType : String)
    (req : ExpressRequest) (net : Except HttpError Assessment)
    (nd : FallbackNondet) : AssessResult :=
  if !cfg.integrationEnabled then { outcome := .next none, events := [] }
  else
    let userData := assessRiskUserData req actionType
    match verifyIdentityResult userData net with
    | .ok a => { outcome := .next (some a), events := [] }
    | .error _ =>
      if assessRiskCatchScope.contains "userData" then
        { outcome := .next (some (createFallbackResponse
            (jsOrStr userData.userId "unknown") "generic_assessment_error" nd))
          events := [] }
      else
        { outcome := .thrown (.referenceError "userData"), events := [] }

/-! ## Fingerprint collector (`public/js/idrock-sdk.js`, `FingerprintCollector`) -/

/-- JS `ToInt32`: wrap an integer into the signed 32-bit range. -/
def toInt32 (n : Int) : Int :=
  let m := n % 4294967296
  if m ≥ 2147483648 then m - 4294967296 else m

/-- One step of `_hashString`'s loop:
`hash = ((hash << 5) - hash) + char; hash = hash & hash`.  The shift is the
32-bit `hash * 32`; the `& hash` re-wraps the exact sum into Int32. -/
def hashStep (h : Int) (c : Nat) : Int :=
  toInt32 (toInt32 (h * 32) - h + c)

/-- The digit characters of `Number.prototype.toString(36)`: 0-9 then a-z. -/
def base36Char (n : Nat) : Char :=
  if n < 10 then Char.ofNat (48 + n) else Char.ofNat (87 + n)

/-- Digits of `n` in base 36, most significant first; `fuel ≥ n` suffices
since `n / 36 < n` for `n > 0`. -/
def natToBase36Go (fuel : Nat) (n : Nat) (acc : List Char) : List Char :=
  match fuel with
  | 0 => acc
  | fuel + 1 =>
    if n = 0 then acc else natToBase36Go fuel (n / 36) (base36Char (n % 36) :: acc)

/-- JS `n.toString(36)` for a non-negative number. -/
def natToBase36 (n : Nat) : String :=
  if n = 0 then "0" else ⟨natToBase36Go n n []⟩

/-- The body of `_hashString`: fold the character codes, then
`Math.abs(hash).toString(36)`.  Characters are taken as Unicode code points
(the inputs of interest are ASCII, where this coincides with
`charCodeAt`). -/
def hashString (s : String) : String :=
  natToBase36 (Int.natAbs (s.data.foldl (fun h c => hashStep h c.toNat) 0))

/-- What one entropy source settles as under `Promise.allSettled`:
fulfilled with a string, or rejected with a reason.  (In the source every
collector in fact resolves, catching its own errors into placeholder
strings; the rejected case is modelled for generality.) -/
def successfulOutputs (components : List (Except String String)) : List String :=
  components.filterMap Except.toOption

/-- The body of `_generateFingerprint` after `Promise.allSettled`: keep the
fulfilled results in source-declaration order, `join('|')`, hash. -/
def generateFingerprint (components : List (Except String String)) : String :=
  hashString (String.intercalate "|"
    ((components.filter fun r => r.toBool).map fun r => match r with
      | .ok v => v
      | .error _ => ""))

/-! ## Concrete fixtures used by the closed theorems below -/

/-- A fixed draw of uuids and clock for concrete runs. -/
def nd0 : FallbackNondet :=
  { uuidMeta := "0123456789abcdef", uuidTop := "fedcba9876543210",
    now := "2025-01-01T00:00:00.000Z" }

/-- A user lookup that never resolves (every identifier unknown). -/
def resolve0 : String → Option String := fun _ => none

/-- A well-formed service assessment with risk level ALLOW. -/
def aAllow : Assessment :=
  { confidence_score := 85, risk_level := "ALLOW", risk_factors := [],
    recommendations := [], metadata := [], timestamp := "2025-01-01T00:00:00.000Z",
    request_id := some "req-001", api_version := some "1.0.0",
    fallback := false, fallback_reason := none }

/-- A login request from localhost: Express reports the client address as
the IPv6 loopback `::1`, which the client's IP regex rejects. -/
def reqLocal : ExpressRequest :=
  { username := some "joao", email := none, bodyUserId := none,
    authUserId := none, userAgent := some "Mozilla/5.0",
    ip := some "::1", connRemoteAddress := none, sockRemoteAddress := none,
    connSockRemoteAddress := none }

/-- A login request with a well-formed client address. -/
def reqOk : ExpressRequest :=
  { username := some "joao", email := none, bodyUserId := none,
    authUserId := none, userAgent := some "Mozilla/5.0",
    ip := some "192.168.1.100", connRemoteAddress := none,
    sockRemoteAddress := none, connSockRemoteAddress := none }

/-- A `verifyIdentity` input whose address is a well-formed dotted quad with
out-of-range octets. -/
def u999 : UserData :=
  { userId := some "u1", ipAddress := some "999.999.999.999",
    userAgent := some "Mozilla/5.0", actionType := some "login" }

/-- A `verifyIdentity` input with the spec scenario's malformed address. -/
def uNotAnIp : UserData :=
  { userId := some "u1", ipAddress := some "not-an-ip",
    userAgent := some "Mozilla/5.0", actionType := some "login" }

/-- A pure network failure (no response at all). -/
def netErr : HttpError := { hasResponse := false, status := 0 }

/-- A 503 response, the retryable server-error case. -/
def err503 : HttpError := { hasResponse := true, status := 503 }

/-- The recognized configuration variant where fallback is enabled but
fallback-proceeding is disabled (`risk.fallback.allowProceed = false`). -/
def cfgFallbackBlock : MiddlewareConfig :=
  { integrationEnabled := true, fallbackEnabled := true, fallbackAllowProceed := false }

/-- The configuration variant where fallback is disabled entirely
(`risk.fallback.enabled = false`). -/
def cfgNoFallback : MiddlewareConfig :=
  { integrationEnabled := true, fallbackEnabled := false, fallbackAllowProceed := true }

/-- A predicate bundling one terminal stats update: the running invariant,
the single `totalRequests` increment, and the exclusive increment of one of
the two outcome counters. -/
def statsStep (old new : SdkStats) : Prop :=
  new.totalRequests = new.successfulRequests + new.failedRequests ∧
  new.totalRequests = old.totalRequests + 1 ∧
  ((new.successfulRequests = old.successfulRequests + 1 ∧
      new.failedRequests = old.failedRequests) ∨
   (new.successfulRequests = old.successfulRequests ∧
      new.failedRequests = old.failedRequests + 1))

/-- A service assessment whose `request_id` is present and non-empty. -/
def hasNonEmptyRequestId (a : Assessment) : Bool :=
  match a.request_id with
  | some s => decide (s ≠ "")
  | none => false

/-! ## Helper lemmas -/

/-- A successful `verifyIdentity` outcome can only come from a successful
network exchange. -/
theorem verifyIdentityResult_ok {u : UserData} {net : Except HttpError Assessment}
    {a : Assessment} (h : verifyIdentityResult u net = .ok a) : net = .ok a := by
  unfold verifyIdentityResult at h
  cases hv : validateUserData u <;> rw [hv] at h
  · exact Except.noConfusion h
  · cases net
    · exact Except.noConfusion h
    · injection h with h
      rw [h]

/-- Every error `_validateUserData` raises is an invalid-input error, never
a wrapped network error. -/
theorem validateUserData_error_isInvalidInput {u : UserData} {e : SdkError}
    (h : validateUserData u = .error e) : e.isInvalidInput = true := by
  unfold validateUserData at h
  split_ifs at h <;>
    first
      | (injection h with h; subst h; rfl)
      | exact Except.noConfusion h

/-- The `x || null` of an event builder keeps a present, non-empty id. -/
theorem jsOrNullStr_isSome {a : Assessment}
    (h : hasNonEmptyRequestId a = true) : (jsOrNullStr a.request_id).isSome = true := by
  unfold hasNonEmptyRequestId at h
  cases hr : a.request_id <;> rw [hr] at h
  · exact Bool.noConfusion h
  · rename_i s
    have hs : ¬s = "" := of_decide_eq_true h
    simp [jsOrNullStr, hs]

/-! ## C1 — retry policy -/

/-- C1: for a permanently-failing call the client is claimed to perform
exactly the configured maximum number of retries (default 3) with
exponential backoff.  Evaluating the embedded interceptor at the failing
inputs shows its retry decision is already false on the first failure
(JS `undefined < 3` is false), so the call issues a single attempt, zero
retries and no backoff wait — for both a network error and a 503. -/
theorem retryInterceptorPerformsNoRetries :
    idrockApiConfig.retryAttempts = 3 ∧
    shouldRetry idrockApiConfig none netErr = false ∧
    shouldRetry idrockApiConfig none err503 = false ∧
    failingCallAttempts idrockApiConfig netErr = 1 ∧
    failingCallAttempts idrockApiConfig err503 = 1 ∧
    retriesForFailingCall idrockApiConfig netErr = 0 ∧
    failingCallDelays idrockApiConfig netErr = [] := by
  decide

/-! ## C2 — invalid input fails fast -/

/-- C2 counterexample: `999.999.999.999` is not a syntactically valid IP
address (its octets exceed 255), yet `_validateUserData`'s basic regex
accepts it, so `verifyIdentity` does not fail immediately and issues a
network request for it. -/
theorem outOfRangeIpPassesValidation :
    specValidIp "999.999.999.999" = false ∧
    validateUserData u999 = .ok () ∧
    verifyNetworkAttempts u999 idrockApiConfig (.ok aAllow) = 1 ∧
    verifyIdentityResult u999 (.ok aAllow) = .ok aAllow := by
  decide

/-- C2 (amended): whenever `_validateUserData` rejects the user data — a
missing/empty required field, an action type outside the closed set, or an
address failing the basic format regex — `verifyIdentity` fails with that
invalid-input error, issues zero HTTP requests, and records one failed call
in the stats. -/
theorem invalidInputFailsWithZeroNetworkAttempts (u : UserData)
    (net : Except HttpError Assessment) (s : SdkStats) (e : SdkError)
    (h : validateUserData u = .error e) :
    verifyIdentityResult u net = .error e ∧
    e.isInvalidInput = true ∧
    verifyNetworkAttempts u idrockApiConfig net = 0 ∧
    verifyIdentityStats u net s =
      { s with totalRequests := s.totalRequests + 1
               failedRequests := s.failedRequests + 1 } := by
  have hres : verifyIdentityResult u net = .error e := by
    unfold verifyIdentityResult
    rw [h]
  refine ⟨hres, validateUserData_error_isInvalidInput h, ?_, ?_⟩
  · unfold verifyNetworkAttempts
    rw [h]
  · unfold verifyIdentityStats
    rw [hres]

/-- C2 witness: the spec scenario `ip: "not-an-ip"`. -/
theorem invalidInputFailsWithZeroNetworkAttempts_witness :
    verifyIdentityResult uNotAnIp (.ok aAllow) = .error (.invalidIpFormat "not-an-ip") ∧
    SdkError.isInvalidInput (.invalidIpFormat "not-an-ip") = true ∧
    verifyNetworkAttempts uNotAnIp idrockApiConfig (.ok aAllow) = 0 ∧
    verifyIdentityStats uNotAnIp (.ok aAllow) ⟨5, 3, 2⟩ =
      { totalRequests := 6, successfulRequests := 3, failedRequests := 3 } :=
  invalidInputFailsWithZeroNetworkAttempts uNotAnIp (.ok aAllow) ⟨5, 3, 2⟩
    (.invalidIpFormat "not-an-ip") (by decide)

/-! ## C4 — fallback synthesis shape -/

/-- C4 counterexample: the fallback assessment does not carry
`metadata.fallback = true` — its `metadata` object has exactly the keys
`processing_time_ms`, `api_version`, `request_id`, `mvp_scope`; the fallback
marker is the top-level `fallback: true` field instead. -/
theorem fallbackMetadataLacksFallbackKey :
    ((createFallbackResponse "u1" "service_unavailable" nd0).metadata.map Prod.fst =
      ["processing_time_ms", "api_version", "request_id", "mvp_scope"]) ∧
    ((createFallbackResponse "u1" "service_unavailable" nd0).metadata.lookup "fallback" = none) ∧
    (createFallbackResponse "u1" "service_unavailable" nd0).fallback = true ∧
    (createFallbackResponse "u1" "service_unavailable" nd0).fallback_reason =
      some "service_unavailable" := by
  decide

/-- C4 (amended): for every `(user_id, reason)` the fallback synthesis
returns an assessment with the configured default risk level REVIEW,
confidence score 50, exactly one synthetic factor documenting the reason,
and a top-level `fallback = true` flag with a `fallback_reason` (the
`metadata` object itself carries no fallback key). -/
theorem createFallbackResponseShape (u r : String) (nd : FallbackNondet) :
    (createFallbackResponse u r nd).risk_level = "REVIEW" ∧
    idrockFallbackConfig.defaultRiskLevel = "REVIEW" ∧
    (createFallbackResponse u r nd).confidence_score = 50 ∧
    (createFallbackResponse u r nd).risk_factors =
      [{ factor := "system_fallback", score := 50, weight := 1,
         details := "Risk assessment service unavailable: " ++ r,
         proxycheck_data := [("fallback", .b true)] }] ∧
    (createFallbackResponse u r nd).fallback = true ∧
    (createFallbackResponse u r nd).fallback_reason = some r ∧
    (createFallbackResponse u r nd).metadata.lookup "fallback" = none := by
  exact ⟨rfl, rfl, rfl, rfl, rfl, rfl, rfl⟩

/-! ## C5 — fallback synthesis purity -/

/-- C5: fallback synthesis is pure — two calls with the same
`(user_id, reason)` but different uuid draws and clock readings agree on
`risk_level`, `confidence_score`, `risk_factors` and `recommendations`
(only timestamps and request ids may differ). -/
theorem createFallbackResponsePure (u r : String) (nd nd' : FallbackNondet) :
    (createFallbackResponse u r nd).risk_level =
      (createFallbackResponse u r nd').risk_level ∧
    (createFallbackResponse u r nd).confidence_score =
      (createFallbackResponse u r nd').confidence_score ∧
    (createFallbackResponse u r nd).risk_factors =
      (createFallbackResponse u r nd').risk_factors ∧
    (createFallbackResponse u r nd).recommendations =
      (createFallbackResponse u r nd').recommendations := by
  exact ⟨rfl, rfl, rfl, rfl⟩

/-! ## C10 — ClientStats invariant -/

/-- C10: from any state satisfying
`totalRequests = successfulRequests + failedRequests`, each terminal outcome
of `verifyIdentity`, `getAssessmentHistory` and `healthCheck` preserves the
invariant, increments `totalRequests` by exactly one, and increments exactly
one of `successfulRequests`/`failedRequests`. -/
theorem clientStatsInvariant (s : SdkStats) (u : UserData)
    (net : Except HttpError Assessment) (nh hh : Except HttpError Unit)
    (hinv : s.totalRequests = s.successfulRequests + s.failedRequests) :
    statsStep s (verifyIdentityStats u net s) ∧
    statsStep s (getAssessmentHistoryStats nh s) ∧
    statsStep s (healthCheckStats hh s) := by
  refine ⟨?_, ?_, ?_⟩
  · unfold verifyIdentityStats
    cases verifyIdentityResult u net <;> simp [statsStep] <;> omega
  · unfold getAssessmentHistoryStats
    cases nh <;> simp [statsStep] <;> omega
  · unfold healthCheckStats
    cases hh <;> simp [statsStep] <;> omega

/-- C10 witness: a concrete state and one concrete outcome of each call. -/
theorem clientStatsInvariant_witness :
    statsStep ⟨5, 3, 2⟩ (verifyIdentityStats u999 (.error netErr) ⟨5, 3, 2⟩) ∧
    statsStep ⟨5, 3, 2⟩ (getAssessmentHistoryStats (.ok ()) ⟨5, 3, 2⟩) ∧
    statsStep ⟨5, 3, 2⟩ (healthCheckStats (.error err503) ⟨5, 3, 2⟩) :=
  clientStatsInvariant ⟨5, 3, 2⟩ u999 (.error netErr) (.ok ()) (.error err503) (by decide)

/-! ## C3 — invalid input and fallback in the login middleware -/

/-- C3 counterexample: a localhost login request carries the client address
`::1`, which `_validateUserData` rejects before any network call (an
invalid-input error, zero HTTP attempts) — yet `protectLogin`'s catch-all
builds a fallback assessment for the request and proceeds with it. -/
theorem invalidInputTriggersFallbackOnLogin :
    validateUserData (extractLoginUserData reqLocal) =
      .error (.invalidIpFormat "::1") ∧
    verifyNetworkAttempts (extractLoginUserData reqLocal) idrockApiConfig
      (.ok aAllow) = 0 ∧
    (protectLogin idrockCfg resolve0 reqLocal (.ok aAllow) nd0).outcome =
      .next (some (createFallbackResponse "joao" "service_error" nd0)) true ∧
    (createFallbackResponse "joao" "service_error" nd0).fallback = true := by
  refine ⟨by decide, by decide, by decide, rfl⟩

/-- C3 (amended): an invalid-input rejection is handled by the same catch as
service errors — under the default configuration (fallback enabled, proceed
enabled) `protectLogin` builds a fallback RiskAssessment for the request and
proceeds flagged, despite the client having made zero network attempts. -/
theorem invalidInputFallbackPolicy (resolve : String → Option String)
    (req : ExpressRequest) (net : Except HttpError Assessment)
    (nd : FallbackNondet) (e : SdkError)
    (h : validateUserData (extractLoginUserData req) = .error e) :
    e.isInvalidInput = true ∧
    verifyNetworkAttempts (extractLoginUserData req) idrockApiConfig net = 0 ∧
    (protectLogin idrockCfg resolve req net nd).outcome =
      .next (some (createFallbackResponse (jsOrStr req.username "unknown")
        "service_error" nd)) true := by
  refine ⟨validateUserData_error_isInvalidInput h, ?_, ?_⟩
  · unfold verifyNetworkAttempts
    rw [h]
  · have hres : verifyIdentityResult (extractLoginUserData req) net = .error e := by
      unfold verifyIdentityResult
      rw [h]
    simp only [protectLogin, hres, idrockCfg, Bool.not_true, Bool.false_eq_true,
      if_false, if_true]

/-- C3 witness: the `::1` localhost request again, through the amended
statement. -/
theorem invalidInputFallbackPolicy_witness :
    SdkError.isInvalidInput (.invalidIpFormat "::1") = true ∧
    verifyNetworkAttempts (extractLoginUserData reqLocal) idrockApiConfig
      (.error err503) = 0 ∧
    (protectLogin idrockCfg resolve0 reqLocal (.error err503) nd0).outcome =
      .next (some (createFallbackResponse (jsOrStr reqLocal.username "unknown")
        "service_error" nd0)) true :=
  invalidInputFallbackPolicy resolve0 reqLocal (.error err503) nd0
    (.invalidIpFormat "::1") (by decide)

/-! ## C6 — no unhandled exception escapes the middleware -/

/-- C6: the generic `assessRisk` middleware violates the claim — its catch
block reads `userData`, which is block-scoped to the `try`, so the handler
itself raises a `ReferenceError` that escapes instead of reaching a terminal
state.  Evaluated here on the `/api/security/assess` route's configuration
(`assessRisk('generic')`), where `verifyIdentity` always throws because
`generic` is not a valid action type, even with a healthy service. -/
theorem assessRiskCatchThrowsReferenceError :
    validateUserData (assessRiskUserData reqOk "generic") =
      .error (.invalidActionType "generic") ∧
    (assessRisk idrockCfg "generic" reqOk (.ok aAllow) nd0).outcome =
      .thrown (.referenceError "userData") := by
  decide

/-! ## C7 — one risk_assessment event per outcome -/

/-- C7 counterexample: an Allowed mediation outcome through the generic
`assessRisk` middleware writes zero `risk_assessment` SecurityEvents, not
exactly one. -/
theorem assessRiskWritesNoEvent :
    (assessRisk idrockCfg "login" reqOk (.ok aAllow) nd0).outcome =
      .next (some aAllow) ∧
    ((assessRisk idrockCfg "login" reqOk (.ok aAllow) nd0).events.filter
      isRiskAssessmentEvent).length = 0 := by
  decide

/-- C7 (amended): under the default configuration, every `protectLogin`
outcome writes exactly one `risk_assessment` SecurityEvent, and that event
carries a non-null `idrock_request_id` provided service assessments carry a
non-empty `request_id` (fallback assessments always do); the generic
`assessRisk` middleware and `protectCheckout`'s fallback path write none. -/
theorem protectLoginWritesExactlyOneRiskAssessmentEvent
    (resolve : String → Option String) (req : ExpressRequest)
    (net : Except HttpError Assessment) (nd : FallbackNondet)
    (hok : ∀ a, net = .ok a → hasNonEmptyRequestId a = true) :
    ((protectLogin idrockCfg resolve req net nd).events.filter
      isRiskAssessmentEvent).length = 1 ∧
    ∀ ev ∈ (protectLogin idrockCfg resolve req net nd).events,
      isRiskAssessmentEvent ev = true → ev.idrock_request_id.isSome = true := by
  cases hv : verifyIdentityResult (extractLoginUserData req) net with
  | ok a =>
    have hid : (jsOrNullStr a.request_id).isSome = true :=
      jsOrNullStr_isSome (hok a (verifyIdentityResult_ok hv))
    simp only [protectLogin, hv, idrockCfg, Bool.not_true, Bool.false_eq_true,
      if_false, if_true]
    split
    · refine ⟨rfl, ?_⟩
      intro ev hev hra
      simp only [List.mem_cons, List.not_mem_nil, or_false] at hev
      rcases hev with rfl | rfl
      · exact hid
      · simp [isRiskAssessmentEvent, logLoginAttemptEvent] at hra
    · split <;>
        · refine ⟨rfl, ?_⟩
          intro ev hev hra
          simp only [List.mem_cons, List.not_mem_nil, or_false] at hev
          rcases hev with rfl
          exact hid
  | error e =>
    have hne : ("fallback_" ++ take12 nd.uuidTop) ≠ "" := by
      intro h
      have h2 : String.mk ("fallback_".data ++ (take12 nd.uuidTop).data) = "" := by
        rw [← String.congr_append]
        exact h
      have hd : "fallback_".data ++ (take12 nd.uuidTop).data = [] :=
        congrArg String.data h2
      rcases List.append_eq_nil.mp hd with ⟨h1, _⟩
      exact absurd h1 (by decide)
    have hfb : (jsOrNullStr (createFallbackResponse (jsOrStr req.username "unknown")
        "service_error" nd).request_id).isSome = true := by
      apply jsOrNullStr_isSome
      unfold hasNonEmptyRequestId createFallbackResponse
      simpa using hne
    simp only [protectLogin, hv, idrockCfg, Bool.not_true, Bool.false_eq_true,
      if_false, if_true]
    refine ⟨rfl, ?_⟩
    intro ev hev hra
    simp only [List.mem_cons, List.not_mem_nil, or_false] at hev
    rcases hev with rfl
    exact hfb

/-- C7 witness: one ALLOW outcome with a concrete service request id. -/
theorem protectLoginWritesExactlyOneRiskAssessmentEvent_witness :
    (((protectLogin idrockCfg resolve0 reqOk (.ok aAllow) nd0).events.filter
      isRiskAssessmentEvent).length = 1) ∧
    ∀ ev ∈ (protectLogin idrockCfg resolve0 reqOk (.ok aAllow) nd0).events,
      isRiskAssessmentEvent ev = true → ev.idrock_request_id.isSome = true :=
  protectLoginWritesExactlyOneRiskAssessmentEvent resolve0 reqOk (.ok aAllow) nd0
    (fun a ha => by injection ha with ha; rw [← ha]; decide)

/-! ## C8 — exhaustion fallback policy -/

/-- C8 counterexample: with fallback enabled but proceeding disabled, the
claimed policy fails in both middlewares the claim names.  In
`protectLogin` the exhaustion short-circuit is a 503 whose body carries no
correlation id at all (`requestId = none`), contradicting the claimed
rejection contents; and `protectCheckout` never reads the
fallback-proceeding switch, so instead of short-circuiting it proceeds
flagged with the synthesized fallback assessment. -/
theorem exhaustionRejectionLacksCorrelationId :
    (protectLogin cfgFallbackBlock resolve0 reqOk (.error err503) nd0).outcome =
      .reject 503 "SERVICE_UNAVAILABLE" none "Please try again in a few minutes" ∧
    (protectCheckout cfgFallbackBlock reqOk (.error err503) nd0).outcome =
      .next (some (createFallbackResponse "unknown" "checkout_service_error" nd0))
        true := by
  decide

/-- C8 (amended): when the client signals exhaustion on a well-formed
context, each middleware applies exactly one fallback path and never treats
it as a silent Allow.  `protectLogin` honours the fallback-proceeding
switch: with proceeding enabled the request proceeds flagged
(`requiresAdditionalAuth = true`) carrying the synthesized fallback
assessment; with proceeding disabled it short-circuits with a 503 rejection
that carries a generic message and no correlation id.  `protectCheckout`
ignores the switch: whenever fallback is enabled it proceeds flagged
(`requiresReview = true`) with the synthesized assessment — also when
proceeding is disabled — and only with fallback disabled entirely does it
short-circuit, with a 503 that likewise carries a generic message and no
correlation id. -/
theorem exhaustionFallbackPolicy (resolve : String → Option String)
    (req : ExpressRequest) (e : HttpError) (nd : FallbackNondet)
    (hval : validateUserData (extractLoginUserData req) = .ok ())
    (hvalC : validateUserData (extractCheckoutUserData req) = .ok ()) :
    (protectLogin idrockCfg resolve req (.error e) nd).outcome =
      .next (some (createFallbackResponse (jsOrStr req.username "unknown")
        "service_error" nd)) true ∧
    (createFallbackResponse (jsOrStr req.username "unknown")
      "service_error" nd).fallback = true ∧
    (protectLogin cfgFallbackBlock resolve req (.error e) nd).outcome =
      .reject 503 "SERVICE_UNAVAILABLE" none "Please try again in a few minutes" ∧
    (protectCheckout idrockCfg req (.error e) nd).outcome =
      .next (some (createFallbackResponse (jsOrStr req.authUserId "unknown")
        "checkout_service_error" nd)) true ∧
    (protectCheckout cfgFallbackBlock req (.error e) nd).outcome =
      .next (some (createFallbackResponse (jsOrStr req.authUserId "unknown")
        "checkout_service_error" nd)) true ∧
    (protectCheckout cfgNoFallback req (.error e) nd).outcome =
      .reject 503 "SECURITY_VERIFICATION_REQUIRED" none
        "Transaction cannot be processed at this time. Please try again later." := by
  have hres : verifyIdentityResult (extractLoginUserData req) (.error e) =
      .error (.apiError e) := by
    unfold verifyIdentityResult
    rw [hval]
  have hresC : verifyIdentityResult (extractCheckoutUserData req) (.error e) =
      .error (.apiError e) := by
    unfold verifyIdentityResult
    rw [hvalC]
  refine ⟨?_, rfl, ?_, ?_, ?_, ?_⟩
  · simp only [protectLogin, hres, idrockCfg, Bool.not_true, Bool.false_eq_true,
      if_false, if_true]
  · simp only [protectLogin, hres, cfgFallbackBlock, Bool.not_true,
      Bool.false_eq_true, if_false, if_true]
  · simp only [protectCheckout, hresC, idrockCfg, Bool.not_true,
      Bool.false_eq_true, if_false, if_true]
  · simp only [protectCheckout, hresC, cfgFallbackBlock, Bool.not_true,
      Bool.false_eq_true, if_false, if_true]
  · simp only [protectCheckout, hresC, cfgNoFallback, Bool.not_true,
      Bool.false_eq_true, if_false, if_true]

/-- C8 witness: a permanently 503-ing service behind a well-formed request,
through both middlewares and all three configuration variants. -/
theorem exhaustionFallbackPolicy_witness :
    (protectLogin idrockCfg resolve0 reqOk (.error err503) nd0).outcome =
      .next (some (createFallbackResponse (jsOrStr reqOk.username "unknown")
        "service_error" nd0)) true ∧
    (createFallbackResponse (jsOrStr reqOk.username "unknown")
      "service_error" nd0).fallback = true ∧
    (protectLogin cfgFallbackBlock resolve0 reqOk (.error err503) nd0).outcome =
      .reject 503 "SERVICE_UNAVAILABLE" none "Please try again in a few minutes" ∧
    (protectCheckout idrockCfg reqOk (.error err503) nd0).outcome =
      .next (some (createFallbackResponse (jsOrStr reqOk.authUserId "unknown")
        "checkout_service_error" nd0)) true ∧
    (protectCheckout cfgFallbackBlock reqOk (.error err503) nd0).outcome =
      .next (some (createFallbackResponse (jsOrStr reqOk.authUserId "unknown")
        "checkout_service_error" nd0)) true ∧
    (protectCheckout cfgNoFallback reqOk (.error err503) nd0).outcome =
      .reject 503 "SECURITY_VERIFICATION_REQUIRED" none
        "Transaction cannot be processed at this time. Please try again later." :=
  exhaustionFallbackPolicy resolve0 reqOk err503 nd0 (by decide) (by decide)

/-! ## C9 — fingerprint join and hash determinism -/

/-- Keeping the fulfilled components and reading their values is exactly
the list of successful outputs, in declaration order. -/
theorem filter_fulfilled_eq_successfulOutputs (cs : List (Except String String)) :
    ((cs.filter fun r => r.toBool).map fun r => match r with
      | .ok v => v
      | .error _ => "") = successfulOutputs cs := by
  induction cs with
  | nil => rfl
  | cons hd tl ih =>
    cases hd with
    | ok v =>
      simp only [successfulOutputs, List.filter_cons, List.filterMap_cons,
        Except.toBool, Except.toOption, if_true, List.map_cons] at ih ⊢
      rw [ih]
    | error msg =>
      simp only [successfulOutputs, List.filter_cons, List.filterMap_cons,
        Except.toBool, Except.toOption, if_false] at ih ⊢
      exact ih

/-- The fingerprint of a component list is the hash of the joined successful
outputs. -/
theorem generateFingerprint_eq (cs : List (Except String String)) :
    generateFingerprint cs =
      hashString (String.intercalate "|" (successfulOutputs cs)) := by
  unfold generateFingerprint
  rw [filter_fulfilled_eq_successfulOutputs]

/-- C9: the collector joins the successful entropy-source outputs in
source-declaration order with `|` and hashes the result with the
non-cryptographic `_hashString`; consequently any two runs whose successful
outputs agree (identical device/browser state, identical successful-source
set) produce the identical token. -/
theorem fingerprintJoinHashDeterministic (cs : List (Except String String)) :
    generateFingerprint cs =
      hashString (String.intercalate "|" (successfulOutputs cs)) ∧
    ∀ cs', successfulOutputs cs' = successfulOutputs cs →
      generateFingerprint cs' = generateFingerprint cs := by
  refine ⟨generateFingerprint_eq cs, ?_⟩
  intro cs' h
  rw [generateFingerprint_eq, generateFingerprint_eq, h]

/-- C9 witness: two runs with one source failing for different reasons but
the same successful outputs produce the same token, the hash of the join. -/
theorem fingerprintJoinHashDeterministic_witness :
    generateFingerprint [.ok "canvas-sig", .error "timeout", .ok "Europe/Paris|-60"] =
      hashString "canvas-sig|Europe/Paris|-60" ∧
    generateFingerprint [.ok "canvas-sig", .error "no_webgl", .ok "Europe/Paris|-60"] =
      generateFingerprint [.ok "canvas-sig", .error "timeout", .ok "Europe/Paris|-60"] := by
  constructor
  · exact (fingerprintJoinHashDeterministic
      [.ok "canvas-sig", .error "timeout", .ok "Europe/Paris|-60"]).1.trans (by rfl)
  · exact (fingerprintJoinHashDeterministic
      [.ok "canvas-sig", .error "timeout", .ok "Europe/Paris|-60"]).2
      [.ok "canvas-sig", .error "no_webgl", .ok "Europe/Paris|-60"] (by rfl)

end IDRock
